import Mathlib

/-!
Verification development for the Sruvaan HKP pipeline core
(`src/cryptor.py`, `src/decryptor.py`, `src/mimicus.py`, `src/probator.py`,
`src/praeceptor.py`).

The Python code is shallowly embedded: Python `str` becomes `String`
(Python string indexing/slicing is by code point, matching `List Char`),
Python `dict[str, T]` becomes an insertion-ordered association list
`List (String × T)` (the dicts built by the code never repeat a key),
Python `float` becomes `ℚ` (every literal and arithmetic step used by the
code is decimal-exact), `hashlib.sha256` is implemented bit-faithfully over
byte lists, and `json.dumps(..., sort_keys=True)` (with its default
`ensure_ascii=True` escaping) is implemented over association lists.
Calls to `secrets`/`random`/`datetime` are modelled by explicitly injected
draw/clock values, one structure field per call site, following the
repository spec's own design note that randomness be an injected source.
The LLM branch of each `run_*` agent is out of the specified core; the
embedded `run_*` functions are the deterministic fallback paths.
-/

namespace Sruvaan

/-- Substring containment on char lists: `p` occurs contiguously in `l`. -/
def listContainsSub (p : List Char) : List Char → Bool
  | [] => p.isEmpty
  | c :: rest => p.isPrefixOf (c :: rest) || listContainsSub p rest

/-- Python `needle in haystack` (substring containment) on strings. -/
def pyIn (needle haystack : String) : Bool :=
  listContainsSub needle.data haystack.data

/-- Python `s.lower()` (the characters appearing in the embedded code are
ASCII or case-less, for which `Char.toLower` agrees with Python). -/
def pyLower (s : String) : String :=
  String.mk (s.data.map Char.toLower)

/-- Python `s[:n]` (slice of the first `n` code points). -/
def pyTake (s : String) (n : Nat) : String :=
  String.mk (s.data.take n)

/-- Python `s[n:]` (drop the first `n` code points). -/
def pyDrop (s : String) (n : Nat) : String :=
  String.mk (s.data.drop n)

/-- Python `s.startswith(p)`. -/
def pyStartsWith (s p : String) : Bool :=
  p.data.isPrefixOf s.data

/-- Python `s.endswith(p)`. -/
def pyEndsWith (s p : String) : Bool :=
  p.data.isSuffixOf s.data

/-- Python `s[-1]` as a one-character string (used only under an
`endswith` guard, so the empty case never matters; it yields `""`). -/
def pyLastChar (s : String) : String :=
  match s.data.getLast? with
  | some c => String.mk [c]
  | none => ""

/-- Python `f"{n:02d}"` for a natural number. -/
def pad2 (n : Nat) : String :=
  if n < 10 then "0" ++ toString n else toString n

/-- Key membership in a Python dict modelled as an association list. -/
def dictContains (m : List (String × String)) (k : String) : Bool :=
  (m.map Prod.fst).contains k

/-- Code-point lexicographic strict order on char lists, as used by
Python when sorting strings. -/
def lexLt : List Char → List Char → Bool
  | [], [] => false
  | [], _ :: _ => true
  | _ :: _, [] => false
  | a :: as, b :: bs =>
      if a.toNat < b.toNat then true
      else if b.toNat < a.toNat then false
      else lexLt as bs

/-- Insert an entry into a key-sorted association list. -/
def insertByKey (x : String × String) : List (String × String) → List (String × String)
  | [] => [x]
  | y :: ys => if lexLt y.1.data x.1.data then y :: insertByKey x ys else x :: y :: ys

/-- Sort an association list by key code-point order (Python `sort_keys=True`;
the dicts being serialized have pairwise distinct keys, so stability is moot). -/
def sortByKey : List (String × String) → List (String × String)
  | [] => []
  | x :: xs => insertByKey x (sortByKey xs)

/-- The sixteen lowercase hex digits. -/
def hexChars : List Char := "0123456789abcdef".data

/-- Hex digit character for `n % 16`. -/
def hexDigit (n : Nat) : Char :=
  hexChars.getD (n % 16) '0'

/-- Four-digit lowercase hex rendering of a value below `0x10000`. -/
def hex4 (n : Nat) : List Char :=
  [hexDigit (n / 4096), hexDigit (n / 256), hexDigit (n / 16), hexDigit n]

/-- JSON escaping of one character exactly as CPython
`json.dumps(..., ensure_ascii=True)` does: the two-character escapes for
quote, backslash and the common control characters, `\uXXXX` for the other
control characters and for every code point at or above `0x7f`, surrogate
pairs above the BMP, everything else literal. -/
def jsonEscapeChar (c : Char) : List Char :=
  if c = '"' then ['\\', '"']
  else if c = '\\' then ['\\', '\\']
  else if c = '\n' then ['\\', 'n']
  else if c = '\r' then ['\\', 'r']
  else if c = '\t' then ['\\', 't']
  else if c = '\x08' then ['\\', 'b']
  else if c = '\x0c' then ['\\', 'f']
  else if c.toNat < 0x20 then '\\' :: 'u' :: hex4 c.toNat
  else if c.toNat < 0x7f then [c]
  else if c.toNat < 0x10000 then '\\' :: 'u' :: hex4 c.toNat
  else
    let v := c.toNat - 0x10000
    ('\\' :: 'u' :: hex4 (0xD800 + v / 0x400)) ++ ('\\' :: 'u' :: hex4 (0xDC00 + v % 0x400))

/-- JSON string literal for `s`. -/
def jsonString (s : String) : List Char :=
  '"' :: (s.data.map jsonEscapeChar).flatten ++ ['"']

/-- CPython `json.dumps(d, sort_keys=True)` for a string-valued dict:
keys sorted by code point, `", "` between items, `": "` between key and
value, ASCII-only output. -/
def jsonDumpsSorted (m : List (String × String)) : String :=
  let items := (sortByKey m).map fun kv => jsonString kv.1 ++ (':' :: ' ' :: jsonString kv.2)
  String.mk ('\x7b' :: (List.intercalate [',', ' '] items ++ ['\x7d']))

/-- UTF-8 encoding of one character (Python `str.encode()`). -/
def utf8Char (c : Char) : List Nat :=
  let n := c.toNat
  if n < 0x80 then [n]
  else if n < 0x800 then [0xC0 ||| (n >>> 6), 0x80 ||| (n &&& 0x3F)]
  else if n < 0x10000 then
    [0xE0 ||| (n >>> 12), 0x80 ||| ((n >>> 6) &&& 0x3F), 0x80 ||| (n &&& 0x3F)]
  else
    [0xF0 ||| (n >>> 18), 0x80 ||| ((n >>> 12) &&& 0x3F),
     0x80 ||| ((n >>> 6) &&& 0x3F), 0x80 ||| (n &&& 0x3F)]

/-- UTF-8 encoding of a string as a byte list. -/
def utf8Encode (s : String) : List Nat :=
  (s.data.map utf8Char).flatten

/-! ### SHA-256 (`hashlib.sha256`), bit-faithful over byte lists -/

/-- Truncate to a 32-bit word. -/
def w32 (n : Nat) : Nat := n % 4294967296

/-- The 32-bit right rotation (input assumed below `2 ^ 32`). -/
def rotr (n w : Nat) : Nat := w32 ((w >>> n) ||| (w <<< (32 - n)))

/-- The SHA-256 round constants (decimal rendering of the standard table). -/
def sha256K : List Nat :=
  [1116352408, 1899447441, 3049323471, 3921009573, 961987163, 1508970993,
   2453635748, 2870763221, 3624381080, 310598401, 607225278, 1426881987,
   1925078388, 2162078206, 2614888103, 3248222580, 3835390401, 4022224774,
   264347078, 604807628, 770255983, 1249150122, 1555081692, 1996064986,
   2554220882, 2821834349, 2952996808, 3210313671, 3336571891, 3584528711,
   113926993, 338241895, 666307205, 773529912, 1294757372, 1396182291,
   1695183700, 1986661051, 2177026350, 2456956037, 2730485921, 2820302411,
   3259730800, 3345764771, 3516065817, 3600352804, 4094571909, 275423344,
   430227734, 506948616, 659060556, 883997877, 958139571, 1322822218,
   1537002063, 1747873779, 1955562222, 2024104815, 2227730452, 2361852424,
   2428436474, 2756734187, 3204031479, 3329325298]

/-- The SHA-256 initial hash state. -/
structure Hash8 where
  a : Nat
  b : Nat
  c : Nat
  d : Nat
  e : Nat
  f : Nat
  g : Nat
  h : Nat

/-- SHA-256 initial state (decimal rendering of the standard values). -/
def sha256Init : Hash8 :=
  ⟨1779033703, 3144134277, 1013904242, 2773480762, 1359893119, 2600822924, 528734635, 1541459225⟩

/-- Group a byte list into big-endian 32-bit words. -/
def bytesToWords : List Nat → List Nat
  | b0 :: b1 :: b2 :: b3 :: rest =>
      (w32 ((b0 <<< 24) ||| (b1 <<< 16) ||| (b2 <<< 8) ||| b3)) :: bytesToWords rest
  | _ => []

/-- Extend the 16 message words to 64 schedule words (`k` more to go). -/
def extendSchedule : Nat → List Nat → List Nat
  | 0, ws => ws
  | k + 1, ws =>
      let i := ws.length
      let x15 := ws.getD (i - 15) 0
      let x2 := ws.getD (i - 2) 0
      let s0 := (rotr 7 x15) ^^^ (rotr 18 x15) ^^^ (x15 >>> 3)
      let s1 := (rotr 17 x2) ^^^ (rotr 19 x2) ^^^ (x2 >>> 10)
      extendSchedule k (ws ++ [w32 (ws.getD (i - 16) 0 + s0 + ws.getD (i - 7) 0 + s1)])

/-- One SHA-256 round, consuming one `(schedule word, constant)` pair. -/
def sha256Round (st : Hash8) (wk : Nat × Nat) : Hash8 :=
  let S1 := (rotr 6 st.e) ^^^ (rotr 11 st.e) ^^^ (rotr 25 st.e)
  let ch := (st.e &&& st.f) ^^^ ((st.e ^^^ 4294967295) &&& st.g)
  let temp1 := w32 (st.h + S1 + ch + wk.2 + wk.1)
  let S0 := (rotr 2 st.a) ^^^ (rotr 13 st.a) ^^^ (rotr 22 st.a)
  let maj := (st.a &&& st.b) ^^^ (st.a &&& st.c) ^^^ (st.b &&& st.c)
  let temp2 := w32 (S0 + maj)
  ⟨w32 (temp1 + temp2), st.a, st.b, st.c, w32 (st.d + temp1), st.e, st.f, st.g⟩

/-- SHA-256 compression of one 64-byte block into the running state. -/
def sha256Compress (st : Hash8) (block : List Nat) : Hash8 :=
  let ws := extendSchedule 48 (bytesToWords block)
  let r := (ws.zip sha256K).foldl sha256Round st
  ⟨w32 (st.a + r.a), w32 (st.b + r.b), w32 (st.c + r.c), w32 (st.d + r.d),
   w32 (st.e + r.e), w32 (st.f + r.f), w32 (st.g + r.g), w32 (st.h + r.h)⟩

/-- SHA-256 padding: `0x80`, zeros to 56 mod 64, 8-byte big-endian bit length. -/
def sha256Pad (bs : List Nat) : List Nat :=
  let L := bs.length
  let z := (119 - (L % 64)) % 64
  bs ++ [0x80] ++ List.replicate z 0 ++
    [56, 48, 40, 32, 24, 16, 8, 0].map fun s =>
      (((8 * L) % 18446744073709551616) >>> s) % 256

/-- Split a list into successive 64-element chunks (fuelled; the fuel is
always at least the list length, so every chunk is produced). -/
def chunks64 : Nat → List Nat → List (List Nat)
  | 0, _ => []
  | _, [] => []
  | fuel + 1, l => l.take 64 :: chunks64 fuel (l.drop 64)

/-- Big-endian bytes of a 32-bit word. -/
def wordBytes (w : Nat) : List Nat :=
  [(w >>> 24) % 256, (w >>> 16) % 256, (w >>> 8) % 256, w % 256]

/-- The SHA-256 digest (32 bytes) of a byte list. -/
def sha256 (bs : List Nat) : List Nat :=
  let padded := sha256Pad bs
  let st := (chunks64 (padded.length) padded).foldl sha256Compress sha256Init
  wordBytes st.a ++ wordBytes st.b ++ wordBytes st.c ++ wordBytes st.d ++
    wordBytes st.e ++ wordBytes st.f ++ wordBytes st.g ++ wordBytes st.h

/-- Lowercase hex characters of a byte list. -/
def bytesToHexChars (bs : List Nat) : List Char :=
  (bs.map fun b => [hexDigit (b / 16), hexDigit b]).flatten

/-- Models `hashlib.sha256(x).hexdigest()`: the 64-character lowercase hex digest. -/
def sha256Hex (bs : List Nat) : String :=
  String.mk (bytesToHexChars (sha256 bs))

/-! ### Misc Python value rendering -/

/-- Decimal digits of a fractional part in `[0,1)` (fuelled; every value fed
to it by the embedded code is an exact short decimal, so the fuel is ample). -/
def decDigits : Nat → ℚ → List Char
  | 0, _ => []
  | fuel + 1, q =>
      if q = 0 then []
      else
        let q10 := q * 10
        Char.ofNat (48 + (Int.toNat ⌊q10⌋) % 10) :: decDigits fuel (q10 - ⌊q10⌋)

/-- Python `str()` of a nonnegative float whose value is an exact short
decimal — the only values the embedded code interpolates into key-derivation
strings (e.g. `str(0.8) = "0.8"`, `str(1.0) = "1.0"`). -/
def pyFloatStr (q : ℚ) : String :=
  let ds := decDigits 17 (q - ⌊q⌋)
  toString ⌊q⌋ ++ "." ++ (if ds.isEmpty then "0" else String.mk ds)

/-- The sixteen uppercase hex digits. -/
def hexUpperChars : List Char := "0123456789ABCDEF".data

/-- Models `secrets.token_hex(2).upper()`: four uppercase hex characters of a
two-byte draw. -/
def tokenHex2Upper (p : Nat) : String :=
  String.mk [hexUpperChars.getD (p / 4096 % 16) '0', hexUpperChars.getD (p / 256 % 16) '0',
             hexUpperChars.getD (p / 16 % 16) '0', hexUpperChars.getD (p % 16) '0']

/-- Models `random.randint(a, b)` (inclusive bounds) driven by an injected draw. -/
def randint (a b r : Nat) : Nat := a + r % (b - a + 1)

/-! ### Data contracts (`src/schemas.py`) -/

/-- Models `SemanticPromptOut`: structured semantic output from the Prompter. -/
structure SemanticPromptOut where
  intent : String
  entities : List (String × String)
  auth_level : String := "L4"
  timestamp : Option String := none
  status : String := "ready"
deriving Repr, DecidableEq

/-- Models `EncryptedOutput`: output of the Cryptor with HKP fields. -/
structure EncryptedOutput where
  encrypted_fields : List (String × String)
  role_tag : String
  pop_signature : String
  time_tag : String
deriving Repr, DecidableEq

/-- Models `DecryptedFieldsOut`: output of the Decryptor. -/
structure DecryptedFieldsOut where
  intent : String
  entities : List (String × String)
  auth_grade : String
  time_issued : String
  exec_status : String
deriving Repr, DecidableEq

/-- Models `MimicOutput`: output of the Mimicus agent. -/
structure MimicOutput where
  mimic_fields : List (String × String)
  spoof_status : String
deriving Repr, DecidableEq

/-- Models `LeakageVectorOut`: leakage assessment from the Probator. The factor
breakdown dict is an association list of rationals. -/
structure LeakageVectorOut where
  leakage_score : ℚ
  details : List (String × ℚ)
  hk_protection : String := "active"
deriving Repr, DecidableEq

/-- The theta parameter dict `{entropy, cipher_strength, role_decay}`. -/
structure ThetaParams where
  entropy : ℚ
  cipher_strength : ℚ
  role_decay : ℚ
deriving Repr, DecidableEq

/-- The default theta parameters of `apply_hkp_encryption` /
`decrypt_hkp_fields`. -/
def thetaDefault : ThetaParams := ⟨0.5, 0.8, 0.5⟩

/-- The ambient effects consumed by one `run_cryptor` fallback call:
`datetime.datetime.utcnow().isoformat()` and the `secrets` draws, one field
per call site (`prefixAt i` is the `secrets.token_hex(2)` draw of the
`i`-th `encrypt_field` call). -/
structure CryptorEnv where
  now : String
  prefixAt : Nat → Fin 65536
  gphi : Fin 100
  node : Fin 100

/-! ### Cryptor (`src/cryptor.py`, deterministic fallback path) -/

/-- Models `derive_role_key`: deterministic role-scoped key
`"HKP_" + sha256("{field_name}_{auth_level}_{cipher_strength}")[:8]`. -/
def derive_role_key (field_name auth_level : String) (theta_params : ThetaParams) : String :=
  let base := field_name ++ "_" ++ auth_level ++ "_" ++ pyFloatStr theta_params.cipher_strength
  "HKP_" ++ pyTake (sha256Hex (utf8Encode base)) 8

/-- Models `encrypt_field`: digest of `"{value}_{key}"` truncated to 12 hex chars,
behind a random 4-hex-uppercase prefix. -/
def encrypt_field (value key : String) (tok : Fin 65536) : String :=
  let encrypted := pyTake (sha256Hex (utf8Encode (value ++ "_" ++ key))) 12
  tokenHex2Upper tok.val ++ "_" ++ encrypted

/-- Models `apply_hkp_encryption`: intent under tag `"Ωα"`, each entity under
`"βΞ_<name>"`, plus the two randomized protocol filler fields. -/
def apply_hkp_encryption (semantic_input : SemanticPromptOut) (theta? : Option ThetaParams)
    (env : CryptorEnv) : List (String × String) :=
  let theta_params := theta?.getD thetaDefault
  let intent_key := derive_role_key "intent" semantic_input.auth_level theta_params
  ([("Ωα", encrypt_field semantic_input.intent intent_key (env.prefixAt 0))] ++
    semantic_input.entities.enum.map (fun ie =>
      ("βΞ_" ++ ie.2.1,
       encrypt_field ie.2.2 (derive_role_key ie.2.1 semantic_input.auth_level theta_params)
         (env.prefixAt (ie.1 + 1))))) ++
  [("$γΦ", "BXR_Λ" ++ pad2 env.gphi.val), ("Node_ζτ", "E" ++ pad2 env.node.val ++ "_Tau")]

/-- Models `generate_pop_signature`: digest of the canonical (keys sorted) JSON of
the field dict, truncated to 12 hex chars. -/
def generate_pop_signature (encrypted_fields : List (String × String)) : String :=
  pyTake (sha256Hex (utf8Encode (jsonDumpsSorted encrypted_fields))) 12

/-- Models `run_cryptor` (rule-based fallback): obfuscate the fields, append the
`Role=Γ5` / `Time=∆τ` metadata, attach the PoP signature. -/
def run_cryptor (inp : SemanticPromptOut) (theta? : Option ThetaParams) (env : CryptorEnv) :
    EncryptedOutput :=
  let time_tag := env.now
  let encrypted_fields :=
    apply_hkp_encryption inp theta? env ++ [("Role=Γ5", "HKP-derived"), ("Time=∆τ", time_tag)]
  { encrypted_fields := encrypted_fields
    role_tag := "Γ5"
    pop_signature := generate_pop_signature encrypted_fields
    time_tag := time_tag }

/-! ### Decryptor (`src/decryptor.py`) -/

/-- Models `verify_pop_signature`: recompute the canonical digest and compare. -/
def verify_pop_signature (encrypted_fields : List (String × String))
    (expected_signature : String) : Bool :=
  pyTake (sha256Hex (utf8Encode (jsonDumpsSorted encrypted_fields))) 12 == expected_signature

/-- Models `decrypt_field`: heuristic placeholder lookup keyed by substring
matching on the (hash-derived) key and value. -/
def decrypt_field (encrypted_value key : String) : String :=
  if pyIn "Ωα" encrypted_value || pyIn "intent" (pyLower key) then "transfer"
  else if pyIn "amount" (pyLower key) || pyIn "βΞ_amount" encrypted_value then "75000 USD"
  else if pyIn "account" (pyLower key) then
    if pyIn "to" (pyLower key) || pyIn "to_account" (pyLower key) then "7395-8845-2291"
    else if pyIn "from" (pyLower key) || pyIn "from_account" (pyLower key) then "1559-6623-4401"
    else "1234-5678-9012-3456"
  else "default_value"

/-- The body of `decrypt_hkp_fields` with the hard-coded auth level and
theta defaults exposed as parameters (the source fixes them to `"L4"` and
`{0.5, 0.8, 0.5}`; this generalization exists to state that fact). Note
`field_name[4:]` drops four code points even though `"βΞ_"` is three. -/
def decryptFieldsWithParams (encrypted_fields : List (String × String))
    (auth_level : String) (theta_params : ThetaParams) : List (String × String) :=
  (match encrypted_fields.lookup "Ωα" with
   | some v => [("intent", decrypt_field v (derive_role_key "intent" auth_level theta_params))]
   | none => [("intent", "transfer")]) ++
  encrypted_fields.filterMap fun kv =>
    if pyStartsWith kv.1 "βΞ_" then
      let entity_key := pyDrop kv.1 4
      some (entity_key, decrypt_field kv.2 (derive_role_key entity_key auth_level theta_params))
    else none

/-- Models `decrypt_hkp_fields`: as in the source, the `role_tag` argument is
accepted but never used — key re-derivation hard-codes auth level `"L4"`
and the default theta `{entropy: 0.5, cipher_strength: 0.8, role_decay: 0.5}`. -/
def decrypt_hkp_fields (encrypted_fields : List (String × String)) (role_tag : String) :
    List (String × String) :=
  decryptFieldsWithParams encrypted_fields "L4" ⟨0.5, 0.8, 0.5⟩

/-- Models `run_decryptor`: raise (`Except.error`) on PoP verification failure,
otherwise rebuild the semantic structure with hard-coded intent
`"transfer"` and `exec_status "queued"`; `auth_grade` comes from the last
character of `role_tag` when it ends in a digit 1–5, else `"Level-4"`. -/
def run_decryptor (inp : EncryptedOutput) : Except String DecryptedFieldsOut :=
  if verify_pop_signature inp.encrypted_fields inp.pop_signature = false then
    Except.error "Invalid Proof-of-Protocol signature"
  else
    let decrypted_fields := decrypt_hkp_fields inp.encrypted_fields inp.role_tag
    Except.ok
      { intent := "transfer"
        entities := decrypted_fields.filter fun kv => kv.1 != "intent"
        auth_grade :=
          if ["1", "2", "3", "4", "5"].any (fun d => pyEndsWith inp.role_tag d) then
            "Level-" ++ pyLastChar inp.role_tag
          else "Level-4"
        time_issued := inp.time_tag
        exec_status := "queued" }

/-! ### Mimicus (`src/mimicus.py`, deterministic fallback path) -/

/-- The `random` draws consumed by one `generate_mimic_fields` call, one
field per call site (`randint` draws are reduced into range at use). -/
structure MimicRand where
  omega : Nat
  bm : Nat
  bz : Nat
  gph : Nat
  node : Nat
  psi : Nat
  sigma : Nat
  amt : Nat
  acc1 : Nat
  acc2 : Nat
  acc3 : Nat
  acc4 : Nat
  day : Nat
  hour : Nat
  minute : Nat

/-- Models `generate_mimic_fields`: the four core tags with fabricated values, two
decoy tags, targeted `"*_mimic"` tags exactly when the entities dict has key
`"amount"` / `"to_account"`, and the fake `Role=Γ3` / `Time=∆τ` markers. -/
def generate_mimic_fields (decrypted_input : DecryptedFieldsOut) (r : MimicRand) :
    List (String × String) :=
  ([("Ωα", "ZYNQ_∆" ++ toString (randint 10 99 r.omega)),
    ("βΞ", "blk_M" ++ toString (randint 1 9 r.bm) ++ "Z" ++ toString (randint 1 9 r.bz)),
    ("$γΦ", "AKR_Ξ" ++ pad2 (randint 1 99 r.gph)),
    ("Node_ζτ", ["E23_Kai", "E99_Lam", "E45_Mu", "E67_Nu"].getD (r.node % 4) "E23_Kai"),
    ("ΨV", toString (randint 50 100 r.psi) ++ "K"),
    ("Σπ", "Λ" ++ toString (randint 1 9 r.sigma))] ++
   ((if dictContains decrypted_input.entities "amount" then
       [("βΞ_amount_mimic",
         "fake_" ++ String.replace (toString (randint 1000 99999 r.amt) ++ " USD") " " "_")]
     else []) ++
    (if dictContains decrypted_input.entities "to_account" then
       [("βΞ_account_mimic",
         "spoof_" ++ toString (randint 1000 9999 r.acc1) ++ "-" ++
           toString (randint 1000 9999 r.acc2) ++ "-" ++ toString (randint 1000 9999 r.acc3) ++
           "-" ++ toString (randint 1000 9999 r.acc4))]
     else []))) ++
  [("Role=Γ3", "mimic-derived"),
   ("Time=∆τ",
    "2025-07-" ++ pad2 (randint 1 31 r.day) ++ "T" ++ pad2 (randint 0 23 r.hour) ++ ":" ++
      pad2 (randint 0 59 r.minute) ++ ":00Z")]

/-- Models `run_mimicus` (rule-based fallback). -/
def run_mimicus (inp : DecryptedFieldsOut) (r : MimicRand) : MimicOutput :=
  { mimic_fields := generate_mimic_fields inp r, spoof_status := "mimic_attempt" }

/-! ### Probator (`src/probator.py`, deterministic fallback path) -/

/-- The `random.uniform` draws consumed by one `analyze_leakage_patterns`
call: `u1` is the value drawn by `uniform(0.1, 0.4)` for `entity_recovery`,
`u2` the value drawn by `uniform(0.3, 0.8)` for `semantic_drift`. -/
structure ProbatorRand where
  u1 : ℚ
  u2 : ℚ

/-- Models `analyze_leakage_patterns`: the five-factor breakdown dict. -/
def analyze_leakage_patterns (mimic_fields : List (String × String)) (r : ProbatorRand) :
    List (String × ℚ) :=
  let entity_recovery : ℚ := if dictContains mimic_fields "Ωα" then r.u1 else 0
  let expected_fields := ["Ωα", "βΞ", "$γΦ", "Node_ζτ"]
  let present_fields := expected_fields.filter fun f => dictContains mimic_fields f
  let structure_fidelity : ℚ := (present_fields.length : ℚ) / (expected_fields.length : ℚ)
  let semantic_drift : ℚ := r.u2
  let pc1 : ℚ :=
    match mimic_fields.lookup "Ωα" with
    | some v => if pyStartsWith v "ZYNQ" || pyStartsWith v "DYNX" then 0.3 else 0
    | none => 0
  let pc2 : ℚ :=
    match mimic_fields.lookup "βΞ" with
    | some v => if pyIn "blk_" v then 0.3 else 0
    | none => 0
  let pc3 : ℚ :=
    match mimic_fields.lookup "$γΦ" with
    | some v => if pyIn "AKR_" v then 0.2 else 0
    | none => 0
  let pc4 : ℚ :=
    match mimic_fields.lookup "Node_ζτ" with
    | some v => if pyIn "E" v then 0.2 else 0
    | none => 0
  let pattern_consistency : ℚ := 0 + pc1 + pc2 + pc3 + pc4
  let field_mapping_accuracy : ℚ :=
    0 + (if dictContains mimic_fields "βΞ_amount_mimic" then 0.4 else 0) +
      (if dictContains mimic_fields "βΞ_account_mimic" then 0.4 else 0)
  [("entity_recovery", entity_recovery), ("structure_fidelity", structure_fidelity),
   ("semantic_drift", semantic_drift), ("pattern_consistency", pattern_consistency),
   ("field_mapping_accuracy", field_mapping_accuracy)]

/-- The fixed factor weights of `calculate_leakage_score`. -/
def leakageWeights : List (String × ℚ) :=
  [("entity_recovery", 0.3), ("structure_fidelity", 0.25), ("semantic_drift", 0.2),
   ("pattern_consistency", 0.15), ("field_mapping_accuracy", 0.1)]

/-- Models `calculate_leakage_score`: weighted sum over the factors present in the
breakdown (`semantic_drift` contributes inverted), clamped to `[0, 1]`. -/
def calculate_leakage_score (details : List (String × ℚ)) : ℚ :=
  let score := leakageWeights.foldl
    (fun acc fw =>
      match details.lookup fw.1 with
      | some v => if fw.1 == "semantic_drift" then acc + fw.2 * (1 - v) else acc + fw.2 * v
      | none => acc)
    0
  min 1 (max 0 score)

/-- Models `assess_hkp_protection`: `"active"` iff a recognized protocol marker,
the wrong-role marker `Role=Γ3` and the time marker are all present;
`"partial"` iff a protocol marker is present without both other signals;
`"inactive"` otherwise. -/
def assess_hkp_protection (mimic_fields : List (String × String)) : String :=
  let hkp_present :=
    ["Role=Γ5", "Time=∆τ", "pop_signature"].any fun f => dictContains mimic_fields f
  let role_protection := dictContains mimic_fields "Role=Γ3"
  let time_protection := dictContains mimic_fields "Time=∆τ"
  if hkp_present && role_protection && time_protection then "active"
  else if hkp_present then "partial"
  else "inactive"

/-- Models `run_probator` (rule-based fallback). -/
def run_probator (inp : MimicOutput) (r : ProbatorRand) : LeakageVectorOut :=
  let leakage_details := analyze_leakage_patterns inp.mimic_fields r
  { leakage_score := calculate_leakage_score leakage_details
    details := leakage_details
    hk_protection := assess_hkp_protection inp.mimic_fields }

/-! ### Praeceptor (`src/praeceptor.py`, deterministic fallback path) -/

/-- Python `d.get(k, 0)` on the factor-breakdown dict. -/
def lookupQ (details : List (String × ℚ)) (k : String) : ℚ :=
  (details.lookup k).getD 0

/-- Banker's rounding to an integer (CPython `round`): round half to even. -/
def roundHalfEven (q : ℚ) : ℤ :=
  let f := ⌊q⌋
  if q - f < 1 / 2 then f
  else if 1 / 2 < q - f then f + 1
  else if f % 2 = 0 then f else f + 1

/-- Python `round(q, 3)`. -/
def round3 (q : ℚ) : ℚ := (roundHalfEven (1000 * q) : ℚ) / 1000

/-- Models `calibrate_parameters`: base theta nudged by the leakage score and the
factor breakdown, clamped per field and rounded to 3 decimals. -/
def calibrate_parameters (leakage_assessment : LeakageVectorOut) : ThetaParams :=
  let base_entropy : ℚ := 0.5
  let base_cipher_strength : ℚ := 0.8
  let base_role_decay : ℚ := 0.5
  let leakage_score := leakage_assessment.leakage_score
  let adj : ℚ × ℚ × ℚ :=
    if leakage_score > 0.5 then
      (min 0.3 (leakage_score * 0.4), min 0.2 (leakage_score * 0.3),
       min 0.3 (leakage_score * 0.5))
    else
      (max (-0.1) ((0.5 - leakage_score) * 0.2), max (-0.1) ((0.5 - leakage_score) * 0.15),
       max (-0.1) ((0.5 - leakage_score) * 0.25))
  let details := leakage_assessment.details
  let entropy_adjustment := if lookupQ details "entity_recovery" > 0.3 then adj.1 + 0.1 else adj.1
  let cipher_adjustment :=
    if lookupQ details "structure_fidelity" > 0.5 then adj.2.1 + 0.1 else adj.2.1
  let role_decay_adjustment :=
    if lookupQ details "semantic_drift" < 0.4 then adj.2.2 - 0.1 else adj.2.2
  let new_entropy := max 0.1 (min 1 (base_entropy + entropy_adjustment))
  let new_cipher_strength := max 0.3 (min 1 (base_cipher_strength + cipher_adjustment))
  let new_role_decay := max 0.1 (min 1 (base_role_decay + role_decay_adjustment))
  ⟨round3 new_entropy, round3 new_cipher_strength, round3 new_role_decay⟩

/-- Models `determine_calibration_mode`: strict thresholds, highest band wins. -/
def determine_calibration_mode (leakage_score : ℚ) : String :=
  if leakage_score > 0.7 then "emergency_recalibrate"
  else if leakage_score > 0.5 then "aggressive_recalibrate"
  else if leakage_score > 0.3 then "recalibrate"
  else if leakage_score > 0.1 then "fine_tune"
  else "maintain"

/-! ### Concrete inputs used by witnesses and counterexamples -/

/-- The round-trip input of the spec's testable property §8:
`{intent: "transfer", entities: {amount, to_account, from_account}, role_level: "L4"}`. -/
def inputC1 : SemanticPromptOut :=
  { intent := "transfer"
    entities := [("amount", "75000 USD"), ("to_account", "7395-8845-2291"),
                 ("from_account", "1559-6623-4401")] }

/-- A concrete choice of clock value and `secrets` draws (all-zero draws). -/
def envZero : CryptorEnv :=
  { now := "2025-07-29T10:30:00", prefixAt := fun _ => 0, gphi := 0, node := 0 }

/-- The entities dict obtained by recovering the `inputC1` bundle. -/
def decryptedEntitiesC1 (theta? : Option ThetaParams) (env : CryptorEnv) :
    List (String × String) :=
  (decrypt_hkp_fields (run_cryptor inputC1 theta? env).encrypted_fields "Γ5").filter
    fun kv => kv.1 != "intent"

/-- A bundle with an empty field dict and the matching PoP tag
(`sha256` of the canonical serialization `"\x7b\x7d"`, truncated). -/
def emptyBundle : EncryptedOutput :=
  { encrypted_fields := []
    role_tag := "Γ5"
    pop_signature := "44136fa355b3"
    time_tag := "2025-07-29T10:30:00" }

/-- Recovered fields whose entities dict has an account-like key that is
neither `"amount"` nor `"to_account"`. -/
def inpFromAccount : DecryptedFieldsOut :=
  { intent := "transfer"
    entities := [("from_account", "1559-6623-4401")]
    auth_grade := "Level-4"
    time_issued := "2025-07-29T10:30:00"
    exec_status := "queued" }

/-- All-zero `random` draws for the Mimicus. -/
def mimicRandZero : MimicRand := ⟨0, 0, 0, 0, 0, 0, 0, 0, 0, 0, 0, 0, 0, 0, 0⟩

end Sruvaan

namespace Sruvaan

/-! ## Helper lemmas -/

theorem bytesToHexChars_length (bs : List Nat) :
    (bytesToHexChars bs).length = 2 * bs.length := by
  induction bs with
  | nil => rfl
  | cons b bs ih =>
      simp only [bytesToHexChars, List.map_cons, List.flatten_cons] at *
      simp only [List.length_append, List.length_cons, List.length_nil, ih]
      omega

theorem sha256_length (bs : List Nat) : (sha256 bs).length = 32 := by
  simp [sha256, wordBytes]

theorem sha256Hex_data_length (bs : List Nat) : (sha256Hex bs).data.length = 64 := by
  show (bytesToHexChars (sha256 bs)).length = 64
  rw [bytesToHexChars_length, sha256_length]

theorem generate_pop_signature_length (f : List (String × String)) :
    (generate_pop_signature f).length = 12 := by
  show ((sha256Hex (utf8Encode (jsonDumpsSorted f))).data.take 12).length = 12
  rw [List.length_take, sha256Hex_data_length]
  decide

/-- The recomputed tag inside `verify_pop_signature` is literally
`generate_pop_signature`, so a bundle tagged by the generator verifies. -/
theorem verify_tag_self (f : List (String × String)) :
    verify_pop_signature f (generate_pop_signature f) = true := by
  unfold verify_pop_signature
  exact beq_self_eq_true _

theorem verify_append_x_false (f : List (String × String)) :
    verify_pop_signature f (generate_pop_signature f ++ "x") = false := by
  unfold verify_pop_signature
  rw [show pyTake (sha256Hex (utf8Encode (jsonDumpsSorted f))) 12 = generate_pop_signature f
        from rfl]
  rw [beq_eq_false_iff_ne]
  intro h
  have hlen := congrArg String.length h
  rw [String.length_append, generate_pop_signature_length] at hlen
  simp at hlen
  exact absurd hlen (by decide)

/-! ## Claims -/

/-- C2: for every field mapping `F`, `verify(F, tag(F))` is true and
`verify(F, tag(F) + "x")` is false, where `tag` is `generate_pop_signature`
and `verify` is `verify_pop_signature`. -/
theorem c2_verification_soundness (F : List (String × String)) :
    verify_pop_signature F (generate_pop_signature F) = true ∧
    verify_pop_signature F (generate_pop_signature F ++ "x") = false :=
  ⟨verify_tag_self F, verify_append_x_false F⟩

/-- C4: `run_decryptor` fails (with the integrity error) exactly when
`verify_pop_signature` rejects the bundle's tag, and succeeds exactly when
the tag verifies — the verification check is the only failure of the
recovery path. -/
theorem c4_integrity_error_iff (inp : EncryptedOutput) :
    (run_decryptor inp = Except.error "Invalid Proof-of-Protocol signature" ↔
      verify_pop_signature inp.encrypted_fields inp.pop_signature = false) ∧
    ((∃ r, run_decryptor inp = Except.ok r) ↔
      verify_pop_signature inp.encrypted_fields inp.pop_signature = true) := by
  rcases Bool.eq_false_or_eq_true (verify_pop_signature inp.encrypted_fields inp.pop_signature)
    with h | h <;> simp [run_decryptor, h]

/-- Recovering the bundle obfuscated from `inputC1` succeeds (the generated
tag verifies) and yields the hard-coded intent, grade `"Level-5"` (from the
last character of the fixed role tag `"Γ5"`), the injected clock value and
the queued status, for every parameter choice and every draw of the
randomness. -/
theorem roundtrip_inputC1 (theta? : Option ThetaParams) (env : CryptorEnv) :
    run_decryptor (run_cryptor inputC1 theta? env) =
      Except.ok
        { intent := "transfer"
          entities := decryptedEntitiesC1 theta? env
          auth_grade := "Level-5"
          time_issued := env.now
          exec_status := "queued" } := by
  have hv : verify_pop_signature (run_cryptor inputC1 theta? env).encrypted_fields
      (run_cryptor inputC1 theta? env).pop_signature = true := verify_tag_self _
  unfold run_decryptor
  rw [hv]
  rfl

/-- The recovered entities dict of the `inputC1` round trip always has
exactly three entries (one per `"βΞ_"`-tagged field), whatever the
parameters and draws. -/
theorem decryptedEntitiesC1_length (theta? : Option ThetaParams) (env : CryptorEnv) :
    (decryptedEntitiesC1 theta? env).length = 3 :=
  rfl

/-- C1 (counterexample): composing the deterministic fallback paths on the
claimed input does not produce `auth_grade = "Level-4"` — at the all-zero
draws the grade is `"Level-5"`. -/
theorem c1_roundtrip_counterexample :
    (run_decryptor (run_cryptor inputC1 none envZero)).map DecryptedFieldsOut.auth_grade ≠
      Except.ok "Level-4" := by
  rw [roundtrip_inputC1 none envZero]
  intro h
  simp only [Except.map] at h
  exact absurd (Except.ok.inj h) (by decide)

/-- C1 (amended): for the input
`{intent: "transfer", entities: {amount, to_account, from_account}, role_level: "L4"}`
the composition `run_decryptor ∘ run_cryptor` (deterministic fallback paths)
yields `intent = "transfer"`, `auth_grade = "Level-5"`, `exec_status = "queued"`
and an entities mapping with as many entries as the input's entities, for
every parameter set and every randomness draw. -/
theorem c1_roundtrip_shape (theta? : Option ThetaParams) (env : CryptorEnv) :
    ∃ r, run_decryptor (run_cryptor inputC1 theta? env) = Except.ok r ∧
      r.intent = "transfer" ∧ r.auth_grade = "Level-5" ∧ r.exec_status = "queued" ∧
      r.entities.length = inputC1.entities.length :=
  ⟨_, roundtrip_inputC1 theta? env, rfl, rfl, rfl, decryptedEntitiesC1_length theta? env⟩

/-- C10: every bundle whose tag verifies is recovered with the hard-coded
`intent = "transfer"` and `exec_status = "queued"`, whatever its encrypted
values; and `decrypt_hkp_fields` ignores the bundle's `role_tag`, always
re-deriving keys with auth level `"L4"` and the default theta (whose
`cipher_strength` is `0.8`), not the parameter set the obfuscator used. -/
theorem c10_recovery_constants (inp : EncryptedOutput)
    (h : verify_pop_signature inp.encrypted_fields inp.pop_signature = true) :
    (∃ r, run_decryptor inp = Except.ok r ∧ r.intent = "transfer" ∧
      r.exec_status = "queued") ∧
    (∀ fields t t', decrypt_hkp_fields fields t = decrypt_hkp_fields fields t') ∧
    (∀ fields t, decrypt_hkp_fields fields t = decryptFieldsWithParams fields "L4" thetaDefault) ∧
    thetaDefault.cipher_strength = 0.8 := by
  refine ⟨?_, fun fields t t' => rfl, fun fields t => rfl, rfl⟩
  refine ⟨{ intent := "transfer"
            entities := (decrypt_hkp_fields inp.encrypted_fields inp.role_tag).filter
              fun kv => kv.1 != "intent"
            auth_grade :=
              if ["1", "2", "3", "4", "5"].any (fun d => pyEndsWith inp.role_tag d) then
                "Level-" ++ pyLastChar inp.role_tag
              else "Level-4"
            time_issued := inp.time_tag
            exec_status := "queued" }, ?_, rfl, rfl⟩
  unfold run_decryptor
  rw [h]
  rfl

set_option maxRecDepth 100000 in
/-- C10 (witness): the empty-fields bundle carrying the canonical tag of
`"\x7b\x7d"` verifies and is recovered with the hard-coded intent and status. -/
theorem c10_recovery_constants_witness :
    verify_pop_signature emptyBundle.encrypted_fields emptyBundle.pop_signature = true ∧
    (∃ r, run_decryptor emptyBundle = Except.ok r ∧ r.intent = "transfer" ∧
      r.exec_status = "queued") := by
  have h : verify_pop_signature emptyBundle.encrypted_fields emptyBundle.pop_signature = true := by
    decide
  exact ⟨h, (c10_recovery_constants emptyBundle h).1⟩

/-- The clamp `min(1.0, max(0.0, score))` keeps every leakage score in `[0, 1]`. -/
theorem calculate_leakage_score_bounds (details : List (String × ℚ)) :
    0 ≤ calculate_leakage_score details ∧ calculate_leakage_score details ≤ 1 := by
  unfold calculate_leakage_score
  exact ⟨le_min (by norm_num) (le_max_left 0 _), min_le_left 1 _⟩

/-- C5: on a factor breakdown with the five factors in `[0, 1]`, the overall
leakage score is the fixed weighted sum (with `semantic_drift` inverted)
clamped to `[0, 1]`; consequently every breakdown, and hence every mimic
bundle scored by `run_probator`, yields a score in `[0, 1]`. -/
theorem c5_leakage_score_weighted_sum (e s d p f : ℚ)
    (he0 : 0 ≤ e) (he1 : e ≤ 1) (hs0 : 0 ≤ s) (hs1 : s ≤ 1) (hd0 : 0 ≤ d) (hd1 : d ≤ 1)
    (hp0 : 0 ≤ p) (hp1 : p ≤ 1) (hf0 : 0 ≤ f) (hf1 : f ≤ 1) :
    calculate_leakage_score
        [("entity_recovery", e), ("structure_fidelity", s), ("semantic_drift", d),
         ("pattern_consistency", p), ("field_mapping_accuracy", f)] =
      min 1 (max 0 (0.3 * e + 0.25 * s + 0.2 * (1 - d) + 0.15 * p + 0.1 * f)) ∧
    (∀ details : List (String × ℚ),
      0 ≤ calculate_leakage_score details ∧ calculate_leakage_score details ≤ 1) ∧
    (∀ (m : MimicOutput) (r : ProbatorRand),
      0 ≤ (run_probator m r).leakage_score ∧ (run_probator m r).leakage_score ≤ 1) := by
  refine ⟨?_, calculate_leakage_score_bounds, fun m r => calculate_leakage_score_bounds _⟩
  rw [show calculate_leakage_score
        [("entity_recovery", e), ("structure_fidelity", s), ("semantic_drift", d),
         ("pattern_consistency", p), ("field_mapping_accuracy", f)] =
      min 1 (max 0 (((((0 : ℚ) + 0.3 * e) + 0.25 * s) + 0.2 * (1 - d)) + 0.15 * p + 0.1 * f))
    from rfl]
  rw [show ((((0 : ℚ) + 0.3 * e) + 0.25 * s) + 0.2 * (1 - d)) + 0.15 * p + 0.1 * f =
      0.3 * e + 0.25 * s + 0.2 * (1 - d) + 0.15 * p + 0.1 * f from by ring]

/-- C5 (witness): the weighted-sum equation evaluated at the all-halves
breakdown, whose factors lie in `[0, 1]`. -/
theorem c5_leakage_score_weighted_sum_witness :
    (0 : ℚ) ≤ 1 / 2 ∧ (1 : ℚ) / 2 ≤ 1 ∧
    calculate_leakage_score
        [("entity_recovery", (1 : ℚ) / 2), ("structure_fidelity", 1 / 2),
         ("semantic_drift", 1 / 2), ("pattern_consistency", 1 / 2),
         ("field_mapping_accuracy", 1 / 2)] =
      min 1 (max 0 (0.3 * (1 / 2) + 0.25 * (1 / 2) + 0.2 * (1 - 1 / 2) + 0.15 * (1 / 2) +
        0.1 * (1 / 2))) :=
  ⟨by norm_num, by norm_num,
   (c5_leakage_score_weighted_sum (1 / 2) (1 / 2) (1 / 2) (1 / 2) (1 / 2)
      (by norm_num) (by norm_num) (by norm_num) (by norm_num) (by norm_num)
      (by norm_num) (by norm_num) (by norm_num) (by norm_num) (by norm_num)).1⟩

/-- C6: the protection classification is `"active"` iff a recognized
protocol marker, the incorrect role marker `Role=Γ3` and the time marker
`Time=∆τ` are all present; `"partial"` iff a protocol marker is present but
not both remaining signals; `"inactive"` otherwise. -/
theorem c6_protection_classification (m : List (String × String)) :
    (assess_hkp_protection m = "active" ↔
      ((dictContains m "Role=Γ5" = true ∨ dictContains m "Time=∆τ" = true ∨
        dictContains m "pop_signature" = true) ∧
       dictContains m "Role=Γ3" = true ∧ dictContains m "Time=∆τ" = true)) ∧
    (assess_hkp_protection m = "partial" ↔
      ((dictContains m "Role=Γ5" = true ∨ dictContains m "Time=∆τ" = true ∨
        dictContains m "pop_signature" = true) ∧
       ¬(dictContains m "Role=Γ3" = true ∧ dictContains m "Time=∆τ" = true))) ∧
    (assess_hkp_protection m = "inactive" ↔
      ¬(dictContains m "Role=Γ5" = true ∨ dictContains m "Time=∆τ" = true ∨
        dictContains m "pop_signature" = true)) := by
  cases h1 : dictContains m "Role=Γ5" <;> cases h2 : dictContains m "Time=∆τ" <;>
    cases h3 : dictContains m "pop_signature" <;> cases h4 : dictContains m "Role=Γ3" <;>
    simp [assess_hkp_protection, h1, h2, h3, h4]

/-- C7: calibration-mode selection uses strict thresholds with the highest
band winning, and each literal boundary score lands in the lower band. -/
theorem c7_calibration_mode_boundaries :
    (∀ leakage_score : ℚ,
      (determine_calibration_mode leakage_score = "emergency_recalibrate" ↔
        0.7 < leakage_score) ∧
      (determine_calibration_mode leakage_score = "aggressive_recalibrate" ↔
        (0.5 < leakage_score ∧ leakage_score ≤ 0.7)) ∧
      (determine_calibration_mode leakage_score = "recalibrate" ↔
        (0.3 < leakage_score ∧ leakage_score ≤ 0.5)) ∧
      (determine_calibration_mode leakage_score = "fine_tune" ↔
        (0.1 < leakage_score ∧ leakage_score ≤ 0.3)) ∧
      (determine_calibration_mode leakage_score = "maintain" ↔ leakage_score ≤ 0.1)) ∧
    determine_calibration_mode 0.1 = "maintain" ∧
    determine_calibration_mode 0.3 = "fine_tune" ∧
    determine_calibration_mode 0.5 = "recalibrate" ∧
    determine_calibration_mode 0.7 = "aggressive_recalibrate" ∧
    determine_calibration_mode 0.71 = "emergency_recalibrate" := by
  constructor
  · intro s
    unfold determine_calibration_mode
    split_ifs with h1 h2 h3 h4 <;> refine ⟨?_, ?_, ?_, ?_, ?_⟩ <;> simp_all <;>
      first
        | linarith
        | (intro hx; linarith)
  · refine ⟨?_, ?_, ?_, ?_, ?_⟩ <;> norm_num [determine_calibration_mode]

theorem roundHalfEven_cases (q : ℚ) : roundHalfEven q = ⌊q⌋ ∨ roundHalfEven q = ⌊q⌋ + 1 := by
  simp only [roundHalfEven]
  split_ifs <;> simp

theorem le_roundHalfEven (n : ℤ) (q : ℚ) (h : (n : ℚ) ≤ q) : n ≤ roundHalfEven q := by
  have h2 : n ≤ ⌊q⌋ := Int.le_floor.mpr h
  rcases roundHalfEven_cases q with h' | h' <;> omega

theorem roundHalfEven_le (n : ℤ) (q : ℚ) (h : q ≤ (n : ℚ)) : roundHalfEven q ≤ n := by
  rcases eq_or_lt_of_le h with he | hl
  · subst he
    simp [roundHalfEven, Int.floor_intCast]
  · have h2 : ⌊q⌋ < n := Int.floor_lt.mpr hl
    rcases roundHalfEven_cases q with h' | h' <;> omega

/-- Rounding to 3 decimals respects bounds that are themselves exact
multiples of `1/1000`. -/
theorem round3_bounds (lo hi : ℤ) (q : ℚ) (h1 : (lo : ℚ) / 1000 ≤ q)
    (h2 : q ≤ (hi : ℚ) / 1000) :
    (lo : ℚ) / 1000 ≤ round3 q ∧ round3 q ≤ (hi : ℚ) / 1000 := by
  have l1 := le_roundHalfEven lo (1000 * q) (by linarith)
  have l2 := roundHalfEven_le hi (1000 * q) (by linarith)
  unfold round3
  constructor
  · exact (div_le_div_iff_of_pos_right (by norm_num)).mpr (by exact_mod_cast l1)
  · exact (div_le_div_iff_of_pos_right (by norm_num)).mpr (by exact_mod_cast l2)

/-- A clamped-then-rounded value stays within the clamp interval and is an
exact multiple of `1/1000`. -/
theorem round3_clamped (lo : ℤ) (c A : ℚ) (hc : c = (lo : ℚ) / 1000) (h01 : c ≤ 1) :
    c ≤ round3 (max c (min 1 A)) ∧ round3 (max c (min 1 A)) ≤ 1 ∧
    ∃ n : ℤ, round3 (max c (min 1 A)) = (n : ℚ) / 1000 := by
  have h1 : c ≤ max c (min 1 A) := le_max_left _ _
  have h2 : max c (min 1 A) ≤ 1 := max_le h01 (min_le_left _ _)
  have hb := round3_bounds lo 1000 (max c (min 1 A)) (hc ▸ h1) (by push_cast; linarith)
  exact ⟨hc ▸ hb.1, le_trans hb.2 (by norm_num),
    ⟨roundHalfEven (1000 * max c (min 1 A)), rfl⟩⟩

/-- C8: for every leakage report — any score, any factor breakdown — the
calibrated parameters satisfy `entropy ∈ [0.1, 1]`,
`cipher_strength ∈ [0.3, 1]` and `role_decay ∈ [0.1, 1]`, each an exact
multiple of `1/1000` (rounded to 3 decimals); out-of-range intermediate
adjustments are clamped, never rejected. -/
theorem c8_parameter_clamping (report : LeakageVectorOut) :
    (0.1 ≤ (calibrate_parameters report).entropy ∧ (calibrate_parameters report).entropy ≤ 1 ∧
      ∃ n : ℤ, (calibrate_parameters report).entropy = (n : ℚ) / 1000) ∧
    (0.3 ≤ (calibrate_parameters report).cipher_strength ∧
      (calibrate_parameters report).cipher_strength ≤ 1 ∧
      ∃ n : ℤ, (calibrate_parameters report).cipher_strength = (n : ℚ) / 1000) ∧
    (0.1 ≤ (calibrate_parameters report).role_decay ∧
      (calibrate_parameters report).role_decay ≤ 1 ∧
      ∃ n : ℤ, (calibrate_parameters report).role_decay = (n : ℚ) / 1000) := by
  obtain ⟨A, hA⟩ : ∃ A, (calibrate_parameters report).entropy = round3 (max 0.1 (min 1 A)) :=
    ⟨_, rfl⟩
  obtain ⟨B, hB⟩ :
      ∃ B, (calibrate_parameters report).cipher_strength = round3 (max 0.3 (min 1 B)) := ⟨_, rfl⟩
  obtain ⟨C, hC⟩ : ∃ C, (calibrate_parameters report).role_decay = round3 (max 0.1 (min 1 C)) :=
    ⟨_, rfl⟩
  rw [hA, hB, hC]
  exact ⟨round3_clamped 100 0.1 A (by norm_num) (by norm_num),
         round3_clamped 300 0.3 B (by norm_num) (by norm_num),
         round3_clamped 100 0.1 C (by norm_num) (by norm_num)⟩

/-- C9 (counterexample): an entities dict whose only key is the
account-like `"from_account"` triggers no targeted-mimic tag at all — no
key of the generated mimic fields carries a `mimic` flag. -/
theorem c9_mimic_field_tags_counterexample :
    pyIn "account" "from_account" = true ∧
    ((generate_mimic_fields inpFromAccount mimicRandZero).map Prod.fst).all
      (fun k => !(pyIn "mimic" k)) = true := by
  decide

/-- C9 (amended): for every recovered-fields input and every draw, the
mimic field dict contains the four core field-tags, the two decoy tags
`ΨV`/`Σπ`, the incorrect role marker `Role=Γ3` and the time tag `Time=∆τ`;
and it contains the targeted tag `"βΞ_amount_mimic"` exactly when the
entities dict has the key `"amount"`, and `"βΞ_account_mimic"` exactly when
it has the key `"to_account"` (no other entity key triggers a targeted
mimic tag). -/
theorem c9_mimic_field_tags (inp : DecryptedFieldsOut) (r : MimicRand) :
    dictContains (generate_mimic_fields inp r) "Ωα" = true ∧
    dictContains (generate_mimic_fields inp r) "βΞ" = true ∧
    dictContains (generate_mimic_fields inp r) "$γΦ" = true ∧
    dictContains (generate_mimic_fields inp r) "Node_ζτ" = true ∧
    dictContains (generate_mimic_fields inp r) "ΨV" = true ∧
    dictContains (generate_mimic_fields inp r) "Σπ" = true ∧
    dictContains (generate_mimic_fields inp r) "Role=Γ3" = true ∧
    dictContains (generate_mimic_fields inp r) "Time=∆τ" = true ∧
    dictContains (generate_mimic_fields inp r) "βΞ_amount_mimic" =
      dictContains inp.entities "amount" ∧
    dictContains (generate_mimic_fields inp r) "βΞ_account_mimic" =
      dictContains inp.entities "to_account" := by
  cases h1 : dictContains inp.entities "amount" <;>
    cases h2 : dictContains inp.entities "to_account" <;>
    simp only [generate_mimic_fields, h1, h2, Bool.false_eq_true, if_true, if_false,
      ite_true, ite_false] <;>
    exact ⟨rfl, rfl, rfl, rfl, rfl, rfl, rfl, rfl, rfl, rfl⟩

end Sruvaan
